import Mathlib

/-!
Verification development for the text-ingestion pipeline of this repository:
the YAML frontmatter extractor and YAML error-context renderer of
core/dbt/clients/yaml_helper.py, and the documentation macro scanner and
registry builder of dbt/parser/docs.py.

The Python source is shallowly embedded: pure functions become Lean
functions over String and List Char; Python exceptions become Except;
the external collaborators (the PyYAML decoder, the jinja2 template
abstract syntax tree, the warn-or-escalate channel, the duplicate-resource
error constructor and the reserved documentation prefix constant, none of
which are part of the sources under verification) are modelled from the
specification, as noted on each definition.
-/

/-! ## The frontmatter delimiter pattern

`FRONTMATTER_DELIMITER = re.compile(r"^---\s*$", re.MULTILINE)`.
The regular expression is embedded directly: a match starts at the
beginning of the string or right after a newline (MULTILINE `^`), consumes
three hyphens and then a greedy run of whitespace characters, and must stop
at the end of the string or right before a newline (MULTILINE `$`, with
backtracking on the greedy `\s*`).
-/

/-- Python `\s` on the characters that occur in text documents
(space, tab, newline, carriage return, vertical tab, form feed). -/
def isPySpace (c : Char) : Bool :=
  c = ' ' || c = '\t' || c = '\n' || c = '\r' || c = '\x0b' || c = '\x0c'

/-- Length of the leading whitespace run, the candidate text for `\s*`. -/
def spaceRun : List Char → Nat
  | [] => 0
  | c :: cs => if isPySpace c then spaceRun cs + 1 else 0

/-- MULTILINE `$`: matches at the end of the string or right before a newline. -/
def dollarAt : List Char → Bool
  | [] => true
  | c :: _ => c = '\n'

/-- Greedy backtracking for `\s*$`: starting from the longest candidate run
`k`, return the largest `k` at which `$` matches, if any. -/
def greedyTail (rest : List Char) : Nat → Option Nat
  | 0 => if dollarAt rest then some 0 else none
  | k + 1 => if dollarAt (rest.drop (k + 1)) then some (k + 1) else greedyTail rest k

/-- Try to match `^---\s*$` at the current position, which the caller
guarantees to be a line start.  On success, return the remainder of the
string after the match together with a flag telling whether the last
consumed character was a newline (that is, whether the remainder begins at
a line start, which MULTILINE `^` needs for the next scan). -/
def delimMatchHere : List Char → Option (List Char × Bool)
  | '-' :: '-' :: '-' :: rest =>
    match greedyTail rest (spaceRun rest) with
    | none => none
    | some k => some (rest.drop k, if k = 0 then false else decide (rest.getD (k - 1) ' ' = '\n'))
  | _ => none

/-- Scan left to right for the first match of the delimiter pattern.
`atStart` records whether the current position is a line start (string
start, or the previous character was a newline).  On success, return the
text before the match, the text after the match and the line-start flag
for the position after the match. -/
def findDelim : List Char → Bool → Option (List Char × List Char × Bool)
  | [], _ => none
  | c :: cs, atStart =>
    match (if atStart then delimMatchHere (c :: cs) else none) with
    | some (rest, nl) => some ([], rest, nl)
    | none =>
      match findDelim cs (decide (c = '\n')) with
      | none => none
      | some (seg, rest, nl) => some (c :: seg, rest, nl)

/-- Embedding of `FRONTMATTER_DELIMITER.split(content, 2)`: split on the first two
delimiter matches, yielding one, two or three segments. -/
def frontmatterSplit2 (content : String) : List String :=
  match findDelim content.toList true with
  | none => [content]
  | some (seg0, rest0, nl0) =>
    match findDelim rest0 nl0 with
    | none => [String.mk seg0, String.mk rest0]
    | some (seg1, rest1, _) => [String.mk seg0, String.mk seg1, String.mk rest1]

/-- Embedding of `NON_WHITESPACE = re.compile(r"\S")`; the test
`NON_WHITESPACE.search(s) is not None`
holds exactly when some character of `s` is not whitespace. -/
def nonWhitespaceSearch (s : String) : Bool :=
  s.toList.any (fun c => !(isPySpace c))

/-! ## Line-numbered YAML error context (yaml_helper.py lines 15 to 50) -/

/-- Python `str.ljust`: pad on the right with spaces up to `width`. -/
def ljust (s : String) (width : Nat) : String :=
  s ++ String.mk (List.replicate (width - s.length) ' ')

/-- Embedding of `line_no(i, line, width=3)`, that is
`"{}| {}".format(str(i).ljust(width), line)`. -/
def line_no (i : Nat) (line : String) (width : Nat) : String :=
  ljust (toString i) width ++ "| " ++ line

/-- Embedding of `prefix_with_line_numbers(string, no_start, no_end)`: split on newlines,
zip `range(no_start, no_end)` with the slice `line_list[no_start:no_end]`
(Python slicing clips at the end of the list, and `zip` truncates to the
shorter argument), number each line one-based, and join with newlines. -/
def prefix_with_line_numbers (string : String) (no_start no_end : Nat) : String :=
  let line_list := string.splitOn "\n"
  let numbers := List.range' no_start (no_end - no_start)
  let relevant_lines := (line_list.drop no_start).take (no_end - no_start)
  String.intercalate "\n" ((numbers.zip relevant_lines).map (fun p => line_no (p.1 + 1) p.2 3))

/-- The `YAML_ERROR_MESSAGE` template with its three holes filled in
(the triple-quoted Python literal, after `.strip()`). -/
def YAML_ERROR_MESSAGE (line_number nice_error raw_error : String) : String :=
  "Syntax error near line " ++ line_number ++
  "\n------------------------------\n" ++ nice_error ++
  "\n\nRaw Error:\n------------------------------\n" ++ raw_error

/-- A PyYAML source-position marker: `mark.line` is the zero-based line of
the offending token. -/
structure Mark where
  line : Nat
deriving DecidableEq

/-- A YAML decode error that carries a `problem_mark`, as consumed by
`contextualized_yaml_error`; `message` stands for Python `str(error)`. -/
structure MarkedYamlError where
  problem_mark : Mark
  message : String
deriving DecidableEq

/-- Embedding of `contextualized_yaml_error(raw_contents, error)`: a three-section
message with the one-based failing line number and a context window of
lines `[mark.line - 3, mark.line + 4)` (lower bound clamped at zero;
`mark.line` is nonnegative, so natural subtraction agrees with
Python `max(mark.line - 3, 0)`). -/
def contextualized_yaml_error (raw_contents : String) (error : MarkedYamlError) : String :=
  let mark := error.problem_mark
  let min_line := max (mark.line - 3) 0
  let max_line := mark.line + 4
  let nice_error := prefix_with_line_numbers raw_contents min_line max_line
  YAML_ERROR_MESSAGE (toString (mark.line + 1)) nice_error error.message

/-! ## The YAML decode adapter (external collaborator) -/

/-- A decoded YAML value (primitive scalars, sequences, mappings). -/
inductive Yaml where
  | bool (b : Bool)
  | int (n : Int)
  | str (s : String)
  | seq (xs : List Yaml)
  | map (kvs : List (String × Yaml))

/-- Modelled from the spec: the typed decode failure raised by the YAML
decoder, carrying an optional source-position line (zero-based, `none` when
the underlying error has no `problem_mark`) and the raw error text. -/
structure YamlErr where
  problem_mark : Option Nat
  message : String

/-- Modelled from the spec: the external safe YAML decoder
(`yaml.load(contents, Loader=SafeLoader)`), a collaborator of this core.
It returns `none` for an empty document and fails with a `YamlErr` for
malformed input.  Theorems quantify over the decoder or fix a concrete one,
mirroring the spec treating full YAML coverage as delegated. -/
structure YamlDecoder where
  safe_load : String → Except YamlErr (Option Yaml)

/-! ## parse_yaml_frontmatter (yaml_helper.py lines 68 to 96)

Python dynamic semantics needed by the guard expression on line 78,
`if len(parts != 3) or ...`:
`parts != 3` compares a list with an int, which are never equal, so the
comparison yields the bool `True`; `len` applied to a bool raises
`TypeError`, since bool has no `__len__`.
-/

/-- A Python runtime error of the embedded code. -/
inductive PyErr where
  | typeError
deriving DecidableEq

/-- The Python values flowing through the guard expression. -/
inductive PyObj where
  | pyList (elems : List String)
  | pyInt (n : Int)
  | pyBool (b : Bool)
deriving DecidableEq

/-- Python `!=` on the shapes above: values of the same kind compare
structurally; a list and an int are of unrelated types and always compare
unequal.  (The numeric bool/int coercion of Python never arises here.) -/
def pyNe : PyObj → PyObj → PyObj
  | PyObj.pyList xs, PyObj.pyList ys => PyObj.pyBool (decide (xs ≠ ys))
  | PyObj.pyInt a, PyObj.pyInt b => PyObj.pyBool (decide (a ≠ b))
  | PyObj.pyBool a, PyObj.pyBool b => PyObj.pyBool (decide (a ≠ b))
  | _, _ => PyObj.pyBool true

/-- Python `len`: defined on lists; raises `TypeError` on ints and bools,
which have no `__len__`. -/
def pyLen : PyObj → Except PyErr Nat
  | PyObj.pyList xs => Except.ok xs.length
  | PyObj.pyInt _ => Except.error PyErr.typeError
  | PyObj.pyBool _ => Except.error PyErr.typeError

/-- The error policy argument `on_error: Literal["warn_or_error", "ignore"]`. -/
inductive OnError where
  | warn_or_error
  | ignore
deriving DecidableEq

/-- What a call of `parse_yaml_frontmatter` produces when it returns:
the tuple `(parsed, remainder)` together with the messages handed to the
external warn-or-escalate channel (`dbt.events.functions.warn_or_error`
is modelled from the spec as an instrumented message sink). -/
structure FrontmatterResult where
  parsed : Option Yaml
  remainder : String
  warnings : List String

/-- Embedding of `parse_yaml_frontmatter(content, on_error)`, line for line:
split on the delimiter with maxsplit 2; evaluate the guard
`len(parts != 3) or NON_WHITESPACE.search(parts[0]) is not None`
(the `len` call raises `TypeError` as explained above, before anything
else can happen); otherwise decode the middle segment, and on decode
failure branch on the error policy, building the banner-prefixed
contextualized message against the full original `content`. -/
def parse_yaml_frontmatter (dec : YamlDecoder) (content : String) (on_error : OnError) :
    Except PyErr FrontmatterResult := do
  let parts := frontmatterSplit2 content
  let guardLen ← pyLen (pyNe (PyObj.pyList parts) (PyObj.pyInt 3))
  if guardLen ≠ 0 || nonWhitespaceSearch (parts.headD "") then
    return { parsed := none, remainder := content, warnings := [] }
  else
    let yaml_content := parts.getD 1 ""
    let after_footer := parts.getD 2 ""
    match dec.safe_load yaml_content with
    | Except.ok parsed_yaml =>
      return { parsed := parsed_yaml, remainder := after_footer, warnings := [] }
    | Except.error e =>
      match on_error with
      | OnError.warn_or_error =>
        let err := match e.problem_mark with
          | some l => contextualized_yaml_error content { problem_mark := { line := l }, message := e.message }
          | none => e.message
        let err := "Error parsing YAML frontmatter!" ++ err
        return { parsed := none, remainder := content, warnings := [err] }
      | OnError.ignore =>
        return { parsed := none, remainder := content, warnings := [] }

/-- Embedding of `maybe_has_yaml_frontmatter(content)`: the truthiness of
`FRONTMATTER_DELIMITER.search(content)`. -/
def maybe_has_yaml_frontmatter (content : String) : Bool :=
  (findDelim content.toList true).isSome

/-- A decoder that accepts everything as the empty document
(never consulted by the theorems that use it). -/
def nullDecoder : YamlDecoder :=
  { safe_load := fun _ => Except.ok none }

/-- A decoder behaving like PyYAML on the round-trip document: it decodes
the extracted segment of `"---\na: 1\n---\nBODY"` to the mapping
`a maps-to 1`. -/
def roundtripDecoder : YamlDecoder :=
  { safe_load := fun s =>
      if s = "\na: 1\n" then Except.ok (some (Yaml.map [("a", Yaml.int 1)]))
      else Except.ok none }

/-- A decoder that fails on every input with a marked decode error at
zero-based line 1, standing for PyYAML on a malformed segment. -/
def failingDecoder : YamlDecoder :=
  { safe_load := fun _ =>
      Except.error { problem_mark := some 1, message := "expected a node content" } }

/-- A document whose middle segment is malformed YAML. -/
def malformedDoc : String := "---\nbad: [\n---\nBODY"

/-- A document with two valid delimiter lines but non-whitespace text before
the first one. -/
def prefixedDoc : String := "text\n---\na: 1\n---\nBODY"

/-! ## Specification-side rendering of the error context window

These definitions follow the words of the specification (window of
zero-based indices in the interval from the mark line minus 3 up to but
excluding the mark line plus 4, clipped to the document bounds with the
lower bound at least 0, each line prefixed with its one-based number
left-justified to width 3 and a bar separator); they are compared with the
code-side `contextualized_yaml_error` in the theorems below. -/

/-- The zero-based indices of the document lines inside the context window. -/
def specWindowIndices (numLines markLine : Nat) : List Nat :=
  (List.range numLines).filter
    (fun i => decide ((markLine : Int) - 3 ≤ (i : Int)) && decide ((i : Int) < (markLine : Int) + 4))

/-- The rendered window lines, one per index, each carrying its one-based
line number left-justified to width 3 followed by a bar and a space. -/
def specContextLines (doc : String) (markLine : Nat) : List String :=
  (specWindowIndices (doc.splitOn "\n").length markLine).map
    (fun i => ljust (toString (i + 1)) 3 ++ "| " ++ (doc.splitOn "\n").getD i "")

/-! ## The documentation macro scanner (dbt/parser/docs.py)

The template engine (jinja2) is an external collaborator: the scanner only
inspects the abstract syntax tree produced by `env.parse`, so the tree is
modelled from the spec as a tagged-variant tree, and the scanner takes the
parsed tree as input. -/

/-- Modelled from the spec: a node of the external template engine's
abstract syntax tree.  A macro-definition node carries its declared name
and body sequence; an output node carries its child nodes; a literal text
node carries its data; any other structural construct is a plain node with
children. -/
inductive JNode where
  | macroDef (name : String) (body : List JNode)
  | output (nodes : List JNode)
  | templateData (data : String)
  | node (children : List JNode)

/-- Modelled from the spec: the child-node sequence of an AST node
(the attribute the scanner reads on the first element of a macro body). -/
def nodesOf : JNode → List JNode
  | JNode.macroDef _ b => b
  | JNode.output ns => ns
  | JNode.templateData _ => []
  | JNode.node cs => cs

/-- Modelled from the spec: the literal data of an AST node; only literal
text nodes carry data. -/
def dataOf : JNode → String
  | JNode.templateData d => d
  | _ => ""

mutual

/-- Embedding of `node.find_all(jinja2.nodes.Macro)` restricted to one child: pre-order,
yield the node itself if it is a macro definition, then recurse into its
children. -/
def findAllMacroDef : JNode → List (String × List JNode)
  | JNode.macroDef nm body => (nm, body) :: findAllMacroDefList body
  | JNode.output ns => findAllMacroDefList ns
  | JNode.templateData _ => []
  | JNode.node cs => findAllMacroDefList cs

/-- Embedding of `ast.find_all(jinja2.nodes.Macro)` over a node sequence, in document
order. -/
def findAllMacroDefList : List JNode → List (String × List JNode)
  | [] => []
  | n :: rest => findAllMacroDef n ++ findAllMacroDefList rest

end

/-- Auxiliary scan for Python `str.replace` with an empty replacement:
remove every non-overlapping occurrence of `pattern`, left to right.
`fuel` only bounds the recursion and is chosen at least the input length,
so the zero-fuel row is never reached on the wrapper below. -/
def removeAllAux (pattern : List Char) : Nat → List Char → List Char
  | 0, l => l
  | _ + 1, [] => []
  | fuel + 1, c :: cs =>
    if 0 < pattern.length && pattern.isPrefixOf (c :: cs) then
      removeAllAux pattern fuel (List.drop pattern.length (c :: cs))
    else
      c :: removeAllAux pattern fuel cs

/-- Python `s.replace(pattern, "")`, as used by
`key.replace(dbt.utils.DOCS_PREFIX, "")`: removes every occurrence of the
pattern, not only a leading one. -/
def str_replace_empty (s pattern : String) : String :=
  String.mk (removeAllAux pattern.toList s.toList.length s.toList)

/-- Python `key.startswith(pattern)`. -/
def pyStartswith (s pattern : String) : Bool :=
  pattern.toList.isPrefixOf s.toList

/-- The unparsed documentation file record produced by file discovery
(`UnparsedDocumentationFile`, a contracts class outside the sources under
verification; its fields are fixed by the spec RawDocument/DocRecord data
model).  The resource-type tag is a plain string here. -/
structure UnparsedDocumentationFile where
  root_path : String
  resource_type : String
  path : String
  original_file_path : String
  package_name : String
  file_contents : String
deriving DecidableEq

/-- The persisted output record (`ParsedDocumentation`): the serialized
docfile fields merged (`dbt.utils.deep_merge`) with the scanner fields
`name`, `unique_id` and `block_contents`. -/
structure ParsedDocumentation where
  root_path : String
  resource_type : String
  path : String
  original_file_path : String
  package_name : String
  file_contents : String
  name : String
  unique_id : String
  block_contents : String
deriving DecidableEq

/-- The body-text extraction of docs.py lines 68 to 71: if the macro body is
non-empty and its first element has child nodes, take the literal data of
the first such child; otherwise the contents are the empty string. -/
def macroBlockContents (body : List JNode) : String :=
  match body with
  | [] => ""
  | first :: _ =>
    match nodesOf first with
    | [] => ""
    | child :: _ => dataOf child

namespace DocumentationParser

/-- docs.py `parse`, over the parsed template tree of one docfile: walk all
macro-definition nodes, keep those whose declared name starts with the
reserved documentation prefix (`dbt.utils.DOCS_PREFIX`, not part of the
sources under verification, hence passed as the parameter `dp`), compute
the bare name with `key.replace(dp, "")`, the unique id
`"{}.{}".format(package_name, name)` and the block contents, and merge with
the serialized docfile fields.  (The source also computes a fully qualified
name via `cls.get_fqn`, whose result is discarded and which lives outside
the verified sources; it is elided here.) -/
def parse (dp : String) (docfile : UnparsedDocumentationFile) (ast : List JNode) :
    List ParsedDocumentation :=
  (findAllMacroDefList ast).filterMap (fun m =>
    if pyStartswith m.1 dp then
      some { root_path := docfile.root_path
             resource_type := docfile.resource_type
             path := docfile.path
             original_file_path := docfile.original_file_path
             package_name := docfile.package_name
             file_contents := docfile.file_contents
             name := str_replace_empty m.1 dp
             unique_id := docfile.package_name ++ "." ++ str_replace_empty m.1 dp
             block_contents := macroBlockContents m.2 }
    else none)

end DocumentationParser

/-- Modelled from the spec: the failure raised by
`dbt.exceptions.raise_duplicate_resource_name` (outside the sources under
verification), a duplicate-resource error naming both the previously stored
record and the new colliding record. -/
inductive LoadError where
  | duplicateResource (previous colliding : ParsedDocumentation)
deriving DecidableEq

/-- Python `parsed.unique_id in to_return` and `to_return[parsed.unique_id]`
on the registry, here an insertion-ordered association list. -/
def lookupReg : List (String × ParsedDocumentation) → String → Option ParsedDocumentation
  | [], _ => none
  | kv :: rest, key => if kv.1 = key then some kv.2 else lookupReg rest key

/-- The inner loop of `load_and_parse`: insert each parsed record into the
registry keyed by its unique id, failing on the first key collision with an
error naming the stored record and the new one, without overwriting. -/
def insertAllDocs (acc : List (String × ParsedDocumentation)) :
    List ParsedDocumentation → Except LoadError (List (String × ParsedDocumentation))
  | [] => Except.ok acc
  | parsed :: rest =>
    match lookupReg acc parsed.unique_id with
    | some previous => Except.error (LoadError.duplicateResource previous parsed)
    | none => insertAllDocs (acc ++ [(parsed.unique_id, parsed)]) rest

/-- docs.py `load_and_parse`, from a given registry accumulator: for each
discovered docfile (file discovery is the external collaborator, so the
batch arrives as a list of docfile records with their parsed template
trees), parse it and insert every resulting record. -/
def load_and_parse_from (dp : String) (acc : List (String × ParsedDocumentation)) :
    List (UnparsedDocumentationFile × List JNode) →
      Except LoadError (List (String × ParsedDocumentation))
  | [] => Except.ok acc
  | fa :: rest =>
    match insertAllDocs acc (DocumentationParser.parse dp fa.1 fa.2) with
    | Except.error e => Except.error e
    | Except.ok acc2 => load_and_parse_from dp acc2 rest

/-- docs.py `load_and_parse`: build the registry fresh (`to_return = {}`)
and process the batch. -/
def load_and_parse (dp : String) (files : List (UnparsedDocumentationFile × List JNode)) :
    Except LoadError (List (String × ParsedDocumentation)) :=
  load_and_parse_from dp [] files

/-- The flattened stream of parsed records of a batch, in processing order
(outer loop over docfiles, inner loop over each parse result). -/
def allParsed (dp : String) (files : List (UnparsedDocumentationFile × List JNode)) :
    List ParsedDocumentation :=
  (files.map (fun fa => DocumentationParser.parse dp fa.1 fa.2)).flatten

/-- A sample docfile for concrete instances. -/
def sampleDocfile : UnparsedDocumentationFile :=
  { root_path := "/proj"
    resource_type := "documentation"
    path := "docs.md"
    original_file_path := "models/docs.md"
    package_name := "pkg"
    file_contents := "" }

/-- A second sample docfile of the same package. -/
def sampleDocfile2 : UnparsedDocumentationFile :=
  { root_path := "/proj"
    resource_type := "documentation"
    path := "docs2.md"
    original_file_path := "models/docs2.md"
    package_name := "pkg"
    file_contents := "" }

/-- A template tree with one documentation macro `foo` whose body is the
single literal text node `"hello"`. -/
def fooHelloAst : List JNode :=
  [JNode.macroDef "dbt_docs__foo" [JNode.output [JNode.templateData "hello"]]]

/-- Two documents of the same package both defining documentation macro
`foo`: a colliding batch. -/
def collidingBatch : List (UnparsedDocumentationFile × List JNode) :=
  [(sampleDocfile, fooHelloAst), (sampleDocfile2, fooHelloAst)]

/-- The record parsed from the first colliding document. -/
def collidingRecord1 : ParsedDocumentation :=
  { root_path := "/proj"
    resource_type := "documentation"
    path := "docs.md"
    original_file_path := "models/docs.md"
    package_name := "pkg"
    file_contents := ""
    name := "foo"
    unique_id := "pkg.foo"
    block_contents := "hello" }

/-- The record parsed from the second colliding document. -/
def collidingRecord2 : ParsedDocumentation :=
  { root_path := "/proj"
    resource_type := "documentation"
    path := "docs2.md"
    original_file_path := "models/docs2.md"
    package_name := "pkg"
    file_contents := ""
    name := "foo"
    unique_id := "pkg.foo"
    block_contents := "hello" }

/-- A template tree whose single documentation macro has a declared name in
which the reserved prefix occurs twice. -/
def doublePrefixAst : List JNode :=
  [JNode.macroDef "dbt_docs__dbt_docs__x" []]

/-! ## Theorems -/

/-- C2: for every decoder behaviour, input string and error policy, the call
`parse_yaml_frontmatter(content, on_error)` raises a `TypeError` and never
returns a tuple: the guard evaluates `len(parts != 3)`, where `parts != 3`
is a boolean comparison of a list against an integer, so `len` is applied
to a bool on every execution path before any precondition check, decode or
return is reached. -/
theorem parse_yaml_frontmatter_always_type_error
    (dec : YamlDecoder) (content : String) (on_error : OnError) :
    parse_yaml_frontmatter dec content on_error = Except.error PyErr.typeError := rfl

/-- C1 (code bug witnessed): on a document with no delimiter at all, and on a
document with two valid delimiters but non-whitespace before the first one,
the code does not return `(None, original_content)` as the claim states: the
guard `len(parts != 3)` raises `TypeError` under either error policy. -/
theorem parse_yaml_frontmatter_no_frontmatter_type_error :
    (frontmatterSplit2 "hello world").length = 1
  ∧ parse_yaml_frontmatter nullDecoder "hello world" OnError.ignore = Except.error PyErr.typeError
  ∧ parse_yaml_frontmatter nullDecoder "hello world" OnError.warn_or_error = Except.error PyErr.typeError
  ∧ (frontmatterSplit2 prefixedDoc).length = 3
  ∧ nonWhitespaceSearch ((frontmatterSplit2 prefixedDoc).headD "") = true
  ∧ parse_yaml_frontmatter nullDecoder prefixedDoc OnError.ignore = Except.error PyErr.typeError :=
  ⟨by decide, rfl, rfl, by decide, by decide, rfl⟩

/-- C3 (code bug witnessed): on the round-trip document `"---\na: 1\n---\nBODY"`
the split does find the frontmatter segments, but the call raises `TypeError`
at the guard instead of returning the decoded mapping with the body;
moreover the body segment after the second delimiter is `"\nBODY"` with its
leading newline retained, not `"BODY"`. -/
theorem parse_yaml_frontmatter_roundtrip_type_error :
    frontmatterSplit2 "---\na: 1\n---\nBODY" = ["", "\na: 1\n", "\nBODY"]
  ∧ parse_yaml_frontmatter roundtripDecoder "---\na: 1\n---\nBODY" OnError.ignore
      = Except.error PyErr.typeError :=
  ⟨by decide, rfl⟩

/-- C4 (code bug witnessed): on a document whose middle segment is malformed
YAML, under the `ignore` policy the call does not return
`(None, original_text)`: it raises `TypeError` at the guard, before the
decoder is ever consulted. -/
theorem parse_yaml_frontmatter_ignore_type_error :
    (frontmatterSplit2 malformedDoc).length = 3
  ∧ parse_yaml_frontmatter failingDecoder malformedDoc OnError.ignore
      = Except.error PyErr.typeError :=
  ⟨by decide, rfl⟩

/-- C5 (code bug witnessed): on a document whose middle segment is malformed
YAML, under the `warn_or_error` policy the warn-or-escalate channel is never
invoked and no tuple is returned: the call raises `TypeError` at the guard,
before the decoder or the channel is reached. -/
theorem parse_yaml_frontmatter_warn_type_error :
    (frontmatterSplit2 malformedDoc).length = 3
  ∧ parse_yaml_frontmatter failingDecoder malformedDoc OnError.warn_or_error
      = Except.error PyErr.typeError :=
  ⟨by decide, rfl⟩

/-- C10: `maybe_has_yaml_frontmatter` never produces a false negative:
whenever the full extraction path would split the document into three
segments (a delimiter pair was found), the pre-filter is truthy; and it is
not a sufficient condition: on `"---\nhello"` only one delimiter occurrence
exists (the split yields two segments), yet the pre-filter is still truthy. -/
theorem maybe_has_yaml_frontmatter_no_false_negatives :
    (∀ content : String, (frontmatterSplit2 content).length = 3 →
        maybe_has_yaml_frontmatter content = true)
  ∧ (frontmatterSplit2 "---\nhello").length = 2
  ∧ maybe_has_yaml_frontmatter "---\nhello" = true := by
  refine ⟨fun content h => ?_, by decide, by decide⟩
  unfold maybe_has_yaml_frontmatter
  unfold frontmatterSplit2 at h
  cases hfd : findDelim content.toList true with
  | none => rw [hfd] at h; simp at h
  | some v => simp [hfd]

/-- Witness for C10 at a concrete document where extraction finds a
delimiter pair. -/
theorem maybe_has_yaml_frontmatter_no_false_negatives_witness :
    maybe_has_yaml_frontmatter "---\na: 1\n---\nBODY" = true :=
  maybe_has_yaml_frontmatter_no_false_negatives.1 "---\na: 1\n---\nBODY" (by decide)

/-- Helper: filtering a number range by a half-open interval yields an
arithmetic range starting at the (clamped) lower bound. -/
theorem filter_range_eq_range' (s e n : Nat) :
    (List.range n).filter (fun i => decide (s ≤ i) && decide (i < e))
      = List.range' s (min e n - s) := by
  induction n with
  | zero => simp
  | succ n ih =>
    rw [List.range_succ, List.filter_append, ih, List.filter_singleton]
    by_cases h1 : s ≤ n
    · by_cases h2 : n < e
      · have hmin1 : min e n = n := by omega
        have hmin2 : min e (n + 1) = n + 1 := by omega
        have hstep : n + 1 - s = (n - s) + 1 := by omega
        have harr : s + 1 * (n - s) = n := by omega
        rw [hmin1, hmin2, hstep, List.range'_concat, harr]
        simp [h1, h2]
      · have hmin : min e (n + 1) - s = min e n - s := by omega
        simp [hmin, h2]
    · have hmin : min e (n + 1) - s = min e n - s := by omega
      simp [hmin, h1]

/-- Helper: zipping a number range against the matching list slice
enumerates the list entries at exactly the in-bounds indices of the range
(the lookup default is never used). -/
theorem zip_range'_slice (L : List String) (s n : Nat) (f : Nat → String → String) :
    ((List.range' s n).zip ((L.drop s).take n)).map (fun p => f p.1 p.2)
      = (List.range' s (min n (L.length - s))).map (fun i => f i (L.getD i "")) := by
  apply List.ext_getElem
  · simp only [List.length_map, List.length_zip, List.length_take, List.length_drop,
      List.length_range']
    omega
  · intro k h1 h2
    have hlen : k < min n (L.length - s) := by
      simpa [List.length_range'] using h2
    have hks : s + k < L.length := by omega
    simp [List.getElem_zip, List.getElem_range', List.getElem_take, List.getElem_drop,
      List.getElem?_eq_getElem hks]

/-- Helper: the code-side context window rendering agrees with the
specification-side one. -/
theorem prefix_with_line_numbers_spec (doc : String) (markLine : Nat) :
    prefix_with_line_numbers doc (max (markLine - 3) 0) (markLine + 4)
      = String.intercalate "\n" (specContextLines doc markLine) := by
  simp only [prefix_with_line_numbers, specContextLines, specWindowIndices, Nat.max_zero]
  congr 1
  rw [zip_range'_slice (doc.splitOn "\n") (markLine - 3) (markLine + 4 - (markLine - 3))
    (fun i line => line_no (i + 1) line 3)]
  have hpred : ∀ i ∈ List.range (doc.splitOn "\n").length,
      (decide ((markLine : Int) - 3 ≤ (i : Int)) && decide ((i : Int) < (markLine : Int) + 4))
        = (decide (markLine - 3 ≤ i) && decide (i < markLine + 4)) := by
    intro i _
    have e1 : decide ((markLine : Int) - 3 ≤ (i : Int)) = decide (markLine - 3 ≤ i) := by
      rw [decide_eq_decide]; omega
    have e2 : decide ((i : Int) < (markLine : Int) + 4) = decide (i < markLine + 4) := by
      rw [decide_eq_decide]; omega
    rw [e1, e2]
  rw [List.filter_congr hpred,
    filter_range_eq_range' (markLine - 3) (markLine + 4) (doc.splitOn "\n").length]
  have harity : min (markLine + 4 - (markLine - 3)) ((doc.splitOn "\n").length - (markLine - 3))
      = min (markLine + 4) (doc.splitOn "\n").length - (markLine - 3) := by omega
  rw [harity]
  rfl

/-- C9: for every document, mark line and raw error text, the
contextualized message reports the one-based line number of the mark and
renders exactly the window of zero-based line indices in
`[markLine - 3, markLine + 4)` clipped to the document bounds (lower bound
at least 0), each line prefixed with its one-based number left-justified to
width 3 and a bar separator; in particular, for an error at zero-based line
10 of a 20-line document the window covers zero-based lines 7 through 13
inclusive. -/
theorem contextualized_yaml_error_window (doc : String) (markLine : Nat) (raw : String) :
    (contextualized_yaml_error doc { problem_mark := { line := markLine }, message := raw }
      = "Syntax error near line " ++ toString (markLine + 1) ++
        "\n------------------------------\n" ++
        String.intercalate "\n" (specContextLines doc markLine) ++
        "\n\nRaw Error:\n------------------------------\n" ++ raw)
  ∧ specWindowIndices 20 10 = [7, 8, 9, 10, 11, 12, 13] := by
  constructor
  · simp only [contextualized_yaml_error, YAML_ERROR_MESSAGE]
    rw [prefix_with_line_numbers_spec]
  · decide

/-- Helper: registry insertion over a concatenated stream runs the first
part and continues with the second on success. -/
theorem insertAllDocs_append (xs ys : List ParsedDocumentation) :
    ∀ acc, insertAllDocs acc (xs ++ ys)
      = match insertAllDocs acc xs with
        | Except.error e => Except.error e
        | Except.ok a => insertAllDocs a ys := by
  induction xs with
  | nil => intro acc; simp [insertAllDocs]
  | cons x t ih =>
    intro acc
    simp only [List.cons_append, insertAllDocs]
    cases lookupReg acc x.unique_id with
    | some prev => rfl
    | none => exact ih _

/-- Helper: the nested loops of `load_and_parse` insert exactly the
flattened stream of parsed records. -/
theorem load_and_parse_from_eq (dp : String)
    (files : List (UnparsedDocumentationFile × List JNode)) :
    ∀ acc, load_and_parse_from dp acc files = insertAllDocs acc (allParsed dp files) := by
  induction files with
  | nil => intro acc; simp [load_and_parse_from, allParsed, insertAllDocs]
  | cons fa rest ih =>
    intro acc
    simp only [load_and_parse_from, allParsed, List.map_cons, List.flatten_cons]
    rw [insertAllDocs_append]
    cases h : insertAllDocs acc (DocumentationParser.parse dp fa.1 fa.2) with
    | error e => simp [h]
    | ok acc2 =>
      have := ih acc2
      simp only [allParsed] at this
      simp [h, this]

/-- Helper: lookup misses when the key labels no entry. -/
theorem lookupReg_eq_none {l : List (String × ParsedDocumentation)} {k : String}
    (h : k ∉ l.map Prod.fst) : lookupReg l k = none := by
  induction l with
  | nil => rfl
  | cons kv t ih =>
    simp only [List.map_cons, List.mem_cons] at h
    push_neg at h
    simp only [lookupReg]
    rw [if_neg (fun hh => h.1 hh.symm)]
    exact ih h.2

/-- Helper: lookup passes over a miss prefix of the registry. -/
theorem lookupReg_append (l1 l2 : List (String × ParsedDocumentation)) (k : String)
    (h : lookupReg l1 k = none) : lookupReg (l1 ++ l2) k = lookupReg l2 k := by
  induction l1 with
  | nil => rfl
  | cons kv t ih =>
    simp only [lookupReg] at h
    by_cases hk : kv.1 = k
    · rw [if_pos hk] at h; exact absurd h (by simp)
    · rw [if_neg hk] at h
      simp only [List.cons_append, lookupReg]
      rw [if_neg hk]
      exact ih h

/-- Helper: a stream of records with pairwise distinct unique identifiers
(also distinct from the keys already stored) inserts without failure, in
order. -/
theorem insertAllDocs_ok (xs : List ParsedDocumentation) :
    ∀ acc, ((acc.map Prod.fst) ++ xs.map (fun r => r.unique_id)).Nodup →
    insertAllDocs acc xs = Except.ok (acc ++ xs.map (fun r => (r.unique_id, r))) := by
  induction xs with
  | nil => intro acc h; simp [insertAllDocs]
  | cons x t ih =>
    intro acc h
    have hx : x.unique_id ∉ acc.map Prod.fst := by
      intro hmem
      rcases List.nodup_append.mp h with ⟨h1, h2, h3⟩
      exact h3 hmem (by simp)
    simp only [insertAllDocs]
    rw [lookupReg_eq_none hx]
    rw [ih (acc ++ [(x.unique_id, x)]) (by simpa [List.append_assoc] using h)]
    simp

/-- C6: whenever the flattened stream of parsed records of a batch has its
first unique-identifier collision at position `j` (the record `q` there
collides with the earlier record `p` at position `i`, and no collision
occurs before `j`), registry building fails with a duplicate-resource error
naming the previously stored record `p` (not overwritten) and the new
colliding record `q`, aborting at that first collision. -/
theorem load_and_parse_duplicate_aborts (dp : String)
    (files : List (UnparsedDocumentationFile × List JNode))
    (i j : Nat) (p q : ParsedDocumentation)
    (hij : i < j)
    (hp : (allParsed dp files)[i]? = some p)
    (hq : (allParsed dp files)[j]? = some q)
    (huid : p.unique_id = q.unique_id)
    (hfirst : (((allParsed dp files).take j).map (fun r => r.unique_id)).Nodup) :
    load_and_parse dp files = Except.error (LoadError.duplicateResource p q) := by
  obtain ⟨hjlt, hjq⟩ := List.getElem?_eq_some.mp hq
  have hflat : load_and_parse dp files = insertAllDocs [] (allParsed dp files) := by
    rw [load_and_parse, load_and_parse_from_eq]
  have hsplit : allParsed dp files
      = (allParsed dp files).take j ++ (q :: (allParsed dp files).drop (j + 1)) := by
    conv_lhs => rw [← List.take_append_drop j (allParsed dp files)]
    rw [List.drop_eq_getElem_cons hjlt, hjq]
  have hok : insertAllDocs [] ((allParsed dp files).take j)
      = Except.ok (((allParsed dp files).take j).map (fun r => (r.unique_id, r))) := by
    have := insertAllDocs_ok ((allParsed dp files).take j) [] (by simpa using hfirst)
    simpa using this
  have hTi : ((allParsed dp files).take j)[i]? = some p := by
    rw [List.getElem?_take]
    simp [hij, hp]
  obtain ⟨hiT, hiTe⟩ := List.getElem?_eq_some.mp hTi
  have hTdecomp : (allParsed dp files).take j
      = ((allParsed dp files).take j).take i
          ++ (p :: ((allParsed dp files).take j).drop (i + 1)) := by
    conv_lhs => rw [← List.take_append_drop i ((allParsed dp files).take j)]
    rw [List.drop_eq_getElem_cons hiT, hiTe]
  have hlook : lookupReg (((allParsed dp files).take j).map (fun r => (r.unique_id, r)))
      q.unique_id = some p := by
    rw [hTdecomp, List.map_append, List.map_cons]
    rw [lookupReg_append]
    · simp only [lookupReg]
      rw [if_pos huid]
    · apply lookupReg_eq_none
      intro hmem
      rw [← huid] at hmem
      simp only [List.map_map] at hmem
      have hnd := hfirst
      rw [hTdecomp, List.map_append, List.map_cons] at hnd
      rcases List.nodup_append.mp hnd with ⟨_, _, hdisj⟩
      exact hdisj (by simpa using hmem) (by simp)
  rw [hflat]
  conv_lhs => rw [hsplit]
  rw [insertAllDocs_append, hok]
  simp only [insertAllDocs, hlook]

/-- Witness for C6: two documents of the same package both defining
documentation macro `foo` make registry building fail with the
duplicate-resource error naming the first record as stored and the second
as colliding. -/
theorem load_and_parse_duplicate_aborts_witness :
    load_and_parse "dbt_docs__" collidingBatch
      = Except.error (LoadError.duplicateResource collidingRecord1 collidingRecord2) :=
  load_and_parse_duplicate_aborts "dbt_docs__" collidingBatch 0 1
    collidingRecord1 collidingRecord2
    (by decide) (by decide) (by decide) (by decide) (by decide)

/-- C7 counterexample: with the reserved prefix occurring twice in the
declared macro name, the emitted bare name removes both occurrences
(`"x"`), while stripping the leading prefix from the declared name would
leave `"dbt_docs__x"`; so the claim that the bare name equals the declared
name with the prefix stripped fails on this input. -/
theorem docs_bare_name_not_prefix_stripped :
    (DocumentationParser.parse "dbt_docs__" sampleDocfile doublePrefixAst).map
        (fun r => r.name) = ["x"]
  ∧ "dbt_docs__dbt_docs__x" = "dbt_docs__" ++ "dbt_docs__x"
  ∧ ("x" : String) ≠ "dbt_docs__x" :=
  ⟨by decide, by decide, by decide⟩

/-- C7 (amended): the scanner emits a candidate exactly for the
macro-definition nodes whose declared name begins with the reserved prefix
(in document order), and each emitted candidate carries the bare name
obtained by removing every occurrence of the prefix from the declared name
(`str.replace`), with the unique identifier equal to the package name, a
dot, then the bare name. -/
theorem docs_scanner_emission (dp : String) (df : UnparsedDocumentationFile)
    (ast : List JNode) :
    (DocumentationParser.parse dp df ast).map (fun r => (r.name, r.unique_id)) =
      (((findAllMacroDefList ast).map Prod.fst).filter (fun nm => pyStartswith nm dp)).map
        (fun nm => (str_replace_empty nm dp,
          df.package_name ++ "." ++ str_replace_empty nm dp)) := by
  unfold DocumentationParser.parse
  generalize findAllMacroDefList ast = l
  induction l with
  | nil => rfl
  | cons m t ih =>
    by_cases h : pyStartswith m.1 dp
    · simp only [List.filterMap_cons, List.map_cons, List.filter_cons, h, if_pos]
      simpa using ih
    · simp only [List.filterMap_cons, List.map_cons, List.filter_cons, h]
      simpa using ih

/-- C8: the block contents of a surviving macro are the literal data of the
first child node of the first body element when the body is non-empty and
that first element has child nodes, and the empty string otherwise (no
error path exists); in particular, scanning a template with one macro named
with the reserved prefix followed by `foo`, whose body is the single
literal text node `"hello"`, yields exactly one candidate with bare name
`foo` and contents `"hello"`. -/
theorem docs_block_contents_extraction (df : UnparsedDocumentationFile) :
    (∀ first : JNode, ∀ rest : List JNode,
        nodesOf first = [] → macroBlockContents (first :: rest) = "")
  ∧ (∀ first child : JNode, ∀ restChildren rest : List JNode,
        nodesOf first = child :: restChildren →
        macroBlockContents (first :: rest) = dataOf child)
  ∧ macroBlockContents [] = ""
  ∧ DocumentationParser.parse "dbt_docs__" df fooHelloAst =
      [{ root_path := df.root_path
         resource_type := df.resource_type
         path := df.path
         original_file_path := df.original_file_path
         package_name := df.package_name
         file_contents := df.file_contents
         name := "foo"
         unique_id := df.package_name ++ "." ++ "foo"
         block_contents := "hello" }] := by
  refine ⟨fun first rest h => ?_, fun first child restChildren rest h => ?_, rfl, ?_⟩
  · simp [macroBlockContents, h]
  · simp [macroBlockContents, h]
  · rfl

/-- Witness for C8 at a concrete body whose first element has a literal
first child. -/
theorem docs_block_contents_extraction_witness :
    macroBlockContents [JNode.output [JNode.templateData "hi"]] = "hi" :=
  (docs_block_contents_extraction sampleDocfile).2.1 (JNode.output [JNode.templateData "hi"])
    (JNode.templateData "hi") [] [] rfl
